import Mathlib

/-!
# NativeControlWin

A shallow embedding of `UI/vs2005/view_framework/controls/native_control_win.cpp`.

The control is a C++ object living inside a view tree and talking to the Win32
window system.  Both surroundings are outside the translated file, so the
embedding threads one explicit `World` through every method:

* the members of the control object (`enabled_`, `native_view_`,
  `original_wndproc_`, `focus_view_`);
* what the view tree answers when the control queries it (visibility in the
  root view, the widget, the parent chain with its backgrounds, the context
  menu controller, the focus manager);
* the part of the window system the control touches (per-window enabled flag,
  window procedure and property, the native focus, the windows created for the
  control and not yet destroyed);
* the `trace`: every call that leaves the translated file, in program order.

Handles, pointers and machine words are natural numbers (their bit pattern);
`0` is `NULL`.  Assertions (`DCHECK`, `NOTREACHED`) fail fast: a method that
trips one stops with a `Fault`.  Each method is one entry point; messages the
window system dispatches while a Win32 call is in progress (such as `WM_DESTROY`
during `DestroyWindow`) are runs of `NativeControlWndProc` of their own and not
part of the caller's trace.
-/

namespace view

/-! ## Machine types and constants -/

abbrev HWND := Nat
abbrev HBRUSH := Nat
abbrev HDC := Nat
abbrev Ptr := Nat
abbrev UINT := Nat
abbrev WPARAM := Nat
abbrev LPARAM := Nat
abbrev LRESULT := Nat

def WM_DESTROY : UINT := 0x0002
def WM_SETFOCUS : UINT := 0x0007
def WM_CONTEXTMENU : UINT := 0x007B
def WM_KEYDOWN : UINT := 0x0100
def WM_CHANGEUISTATE : UINT := 0x0127
def WM_CTLCOLORBTN : UINT := 0x0135
def WM_CTLCOLORSTATIC : UINT := 0x0138
def UIS_CLEAR : Nat := 2
def UISF_HIDEFOCUS : Nat := 0x1
def COLOR_BTNFACE : Nat := 15

/-- The `LOWORD` of windef.h: `(WORD)(((DWORD_PTR)(l)) & 0xffff)`. -/
def LOWORD (l : Nat) : Nat := l % 65536

/-- The `HIWORD` of windef.h: `(WORD)((((DWORD_PTR)(l)) >> 16) & 0xffff)`. -/
def HIWORD (l : Nat) : Nat := (l / 65536) % 65536

/-- The C cast `(int)(short)v` of a 16-bit word: two's complement reading. -/
def short (v : Nat) : Int :=
  if v % 65536 < 32768 then ((v % 65536 : Nat) : Int) else ((v % 65536 : Nat) : Int) - 65536

/-- The `GET_X_LPARAM` of windowsx.h: `((int)(short)LOWORD(lp))`. -/
def GET_X_LPARAM (lp : LPARAM) : Int := short (LOWORD lp)

/-- The `GET_Y_LPARAM` of windowsx.h: `((int)(short)HIWORD(lp))`. -/
def GET_Y_LPARAM (lp : LPARAM) : Int := short (HIWORD lp)

/-- The `MAKEWPARAM(l, h)` of winuser.h: low word `l`, high word `h`. -/
def MAKEWPARAM (l h : Nat) : WPARAM := l % 65536 + (h % 65536) * 65536

/-- The C cast `static_cast<int>(w_param)`: the low 32 bits read as a signed integer. -/
def static_cast_int (v : Nat) : Int :=
  if v % 4294967296 < 2147483648 then ((v % 4294967296 : Nat) : Int)
  else ((v % 4294967296 : Nat) : Int) - 4294967296

/-- Window procedures: the static `NativeControlWin::NativeControlWndProc`, or any other
procedure, named by its address. -/
inductive WNDPROC where
  | NativeControlWndProc
  | other (address : Nat)
  deriving DecidableEq, Repr

/-- The `gfx::Point`: integer coordinates. -/
structure Point where
  x : Int
  y : Int
  deriving DecidableEq, Repr

/-- The accessibility event types used by this file (`AccessibilityTypes::Event`). -/
inductive AccessibilityTypes where
  | EVENT_FOCUS
  deriving DecidableEq, Repr

/-- A `Background`: the only member read here is the brush returned by
`GetNativeControlBrush()` (`0` when the background has none). -/
structure Background where
  GetNativeControlBrush : HBRUSH
  deriving DecidableEq, Repr

/-- A `View` of the tree, as far as this file reads it: its identity (address) and its
`background()` pointer (`none` is the null pointer). -/
structure View where
  id : Ptr
  background : Option Background
  deriving DecidableEq, Repr

/-- Every call that leaves the translated file: Win32 calls, calls into the base classes
`View` and `NativeViewHost`, into other framework objects, and the virtual hooks implemented
by subclasses. -/
inductive Call where
  | Attach (hwnd : HWND)
  | Detach
  | DestroyWindow (hwnd : HWND)
  | CreateWindowEx (hwnd : HWND)
  | EnableWindow (hwnd : HWND) (enable : Bool)
  | SetFocus (hwnd : HWND)
  | SetProp (hwnd : HWND)
  | SetWindowProc (hwnd : HWND) (proc : WNDPROC)
  | SendMessage (hwnd : HWND) (message : UINT) (w_param : WPARAM) (l_param : LPARAM)
  | CallWindowProc (proc : WNDPROC) (hwnd : HWND) (message : UINT) (w_param : WPARAM)
      (l_param : LPARAM)
  | GetSysColorBrush (index : Nat)
  | View_SetEnabled (enabled : Bool)
  | NativeViewHost_ViewHierarchyChanged (is_add : Bool) (parent child : Ptr)
  | CreateNativeControl
  | Layout
  | View_ShowContextMenu (p : Point) (is_mouse_gesture : Bool)
  | NotifyAccessibilityEvent (view : Ptr) (event_type : AccessibilityTypes)
      (send_native_event : Bool)
  | SetFocusedView (focus_manager : Ptr) (view : Ptr)
  | OnKeyDown (virtual_key_code : Int)
  deriving DecidableEq, Repr

/-- How a method can stop without returning: a failed `DCHECK`, a reached `NOTREACHED()`
(both fail fast), or a call through a null pointer. -/
inductive Fault where
  | DCHECK
  | NOTREACHED
  | NullDereference
  deriving DecidableEq, Repr

/-- The control object together with its surroundings. -/
structure World where
  /-- The member `View::enabled_`, read by `IsEnabled()`. -/
  enabled_ : Bool
  /-- The member `NativeViewHost::native_view_`, read by `native_view()`. -/
  native_view_ : HWND
  /-- The member `NativeControlWin::original_wndproc_`. -/
  original_wndproc_ : WNDPROC
  /-- The member `NativeViewHost::focus_view_`, read by `focus_view()`. -/
  focus_view_ : Ptr
  /-- The control seen as a view (`this`). -/
  self : View
  /-- The parent chain of the control: parent first, root last. -/
  ancestors : List View
  /-- The answer of `IsVisibleInRootView()`. -/
  visible_in_root : Bool
  /-- The answer of `GetWidget()`. -/
  widget : Ptr
  /-- The answer of `GetContextMenuController()`. -/
  context_menu_controller : Ptr
  /-- The answer of `GetKeyboardContextMenuLocation()`. -/
  keyboard_context_menu_location : Point
  /-- The answer of `GetFocusManager()`. -/
  focus_manager : Ptr
  /-- The subclass: the window its `CreateNativeControl` creates next and hands to
  `NativeControlCreated` (`none`: it creates nothing; `some 0`: window creation failed). -/
  next_hwnd : Option HWND
  /-- The subclass: the answer of the virtual `OnKeyDown`. -/
  on_key_down : Int → Bool
  /-- The window system: the enabled flag of each window. -/
  win_enabled : HWND → Bool
  /-- The window system: the window procedure of each window. -/
  win_proc : HWND → WNDPROC
  /-- The window system: whether the window carries the property `kNativeControlWinKey`
  holding this control. -/
  win_prop : HWND → Bool
  /-- The window system: the window that has the native focus. -/
  focus : HWND
  /-- The window system: the windows created for this control and not yet destroyed. -/
  windows : List HWND
  /-- The window system: the result of calling a window procedure. -/
  window_proc_result : WNDPROC → HWND → UINT → WPARAM → LPARAM → LRESULT
  /-- The window system: the brush of each system colour. -/
  sys_color_brush : Nat → HBRUSH
  /-- Every call that left the translated file so far, oldest first. -/
  trace : List Call

/-- Record one outgoing call. -/
def World.call (w : World) (c : Call) : World :=
  { w with trace := w.trace ++ [c] }

/-! ## The window system (Win32) -/

/-- The Win32 `DestroyWindow`: the window stops existing. -/
def DestroyWindow (hwnd : HWND) (w : World) : World :=
  { w with windows := w.windows.erase hwnd, trace := w.trace ++ [Call.DestroyWindow hwnd] }

/-- The Win32 `CreateWindowEx` as called by a subclass: `hwnd` is the handle it returns,
`0` on failure. -/
def CreateWindowEx (hwnd : HWND) (w : World) : World :=
  { w with
    windows := if hwnd ≠ 0 then hwnd :: w.windows else w.windows,
    trace := w.trace ++ [Call.CreateWindowEx hwnd] }

/-- The Win32 `EnableWindow`: sets the enabled flag of the window. -/
def EnableWindow (hwnd : HWND) (enable : Bool) (w : World) : World :=
  { w with
    win_enabled := Function.update w.win_enabled hwnd enable,
    trace := w.trace ++ [Call.EnableWindow hwnd enable] }

/-- The Win32 `SetFocus`: moves the native focus to the window. -/
def SetFocus (hwnd : HWND) (w : World) : World :=
  { w with focus := hwnd, trace := w.trace ++ [Call.SetFocus hwnd] }

/-- The Win32 `SetProp(hwnd, kNativeControlWinKey, this)`. -/
def SetProp (hwnd : HWND) (w : World) : World :=
  { w with
    win_prop := Function.update w.win_prop hwnd true,
    trace := w.trace ++ [Call.SetProp hwnd] }

/-- The Win32 `GetProp(hwnd, kNativeControlWinKey)`: `true` when it returns this control,
`false` when it returns `NULL`. -/
def GetProp (hwnd : HWND) (w : World) : Bool :=
  w.win_prop hwnd

/-- The Win32 `SendMessage`, used here for `WM_CHANGEUISTATE` only. -/
def SendMessage (hwnd : HWND) (message : UINT) (w_param : WPARAM) (l_param : LPARAM)
    (w : World) : World :=
  w.call (Call.SendMessage hwnd message w_param l_param)

/-- The Win32 `CallWindowProc`: runs the given procedure and returns its result. -/
def CallWindowProc (proc : WNDPROC) (hwnd : HWND) (message : UINT) (w_param : WPARAM)
    (l_param : LPARAM) (w : World) : LRESULT × World :=
  (w.window_proc_result proc hwnd message w_param l_param,
   w.call (Call.CallWindowProc proc hwnd message w_param l_param))

/-- The Win32 `GetSysColorBrush`. -/
def GetSysColorBrush (index : Nat) (w : World) : HBRUSH × World :=
  (w.sys_color_brush index, w.call (Call.GetSysColorBrush index))

/-! ## Framework code outside the translated file -/

/-- Modelled from the spec: `base::SetWindowProc` (base/win_util.h, not under src/) subclasses
a window: it installs `proc` as the window procedure and returns the procedure that was
installed before. -/
def SetWindowProc (hwnd : HWND) (proc : WNDPROC) (w : World) : WNDPROC × World :=
  (w.win_proc hwnd,
   { w with
     win_proc := Function.update w.win_proc hwnd proc,
     trace := w.trace ++ [Call.SetWindowProc hwnd proc] })

/-- Modelled from the spec: `NativeViewHost::native_view()` (not under src/) returns the
attached handle, null when detached. -/
def native_view (w : World) : HWND := w.native_view_

/-- Modelled from the spec: `NativeViewHost::Attach` (not under src/) makes the handle the
attached one. -/
def Attach (hwnd : HWND) (w : World) : World :=
  { w with native_view_ := hwnd, trace := w.trace ++ [Call.Attach hwnd] }

/-- Modelled from the spec: `NativeViewHost::Detach` (not under src/) leaves the control
without a handle. -/
def Detach (w : World) : World :=
  { w with native_view_ := 0, trace := w.trace ++ [Call.Detach] }

/-- Modelled from the spec: `NativeViewHost::focus_view()` (not under src/). -/
def focus_view (w : World) : Ptr := w.focus_view_

/-- Modelled from the spec: the base-class handler `NativeViewHost::ViewHierarchyChanged`
(not under src/) hides the view on removal; it neither attaches nor detaches a handle. -/
def NativeViewHost_ViewHierarchyChanged (is_add : Bool) (parent child : Ptr) (w : World) :
    World :=
  w.call (Call.NativeViewHost_ViewHierarchyChanged is_add parent child)

/-- Modelled from the spec: `Layout()` (inherited, not under src/) positions the native
window; it neither attaches nor detaches a handle. -/
def Layout (w : World) : World := w.call Call.Layout

/-- Modelled from the spec: `View::IsEnabled()` (not under src/) reads the logical enabled
state of the view. -/
def IsEnabled (w : World) : Bool := w.enabled_

/-- Modelled from the spec: `View::SetEnabled` (not under src/) stores the logical enabled
state of the view. -/
def View_SetEnabled (enabled : Bool) (w : World) : World :=
  { w with enabled_ := enabled, trace := w.trace ++ [Call.View_SetEnabled enabled] }

/-- Modelled from the spec: `View::IsVisibleInRootView()` (not under src/). -/
def IsVisibleInRootView (w : World) : Bool := w.visible_in_root

/-- Modelled from the spec: `View::GetWidget()` (not under src/). -/
def GetWidget (w : World) : Ptr := w.widget

/-- Modelled from the spec: `View::GetParent()` (not under src/): the first ancestor,
`none` for the null pointer. -/
def GetParent (w : World) : Option View := w.ancestors.head?

/-- Modelled from the spec: `View::GetContextMenuController()` (not under src/). -/
def GetContextMenuController (w : World) : Ptr := w.context_menu_controller

/-- Modelled from the spec: `View::GetKeyboardContextMenuLocation()` (not under src/). -/
def GetKeyboardContextMenuLocation (w : World) : Point := w.keyboard_context_menu_location

/-- Modelled from the spec: the base-class `View::ShowContextMenu(p, is_mouse_gesture)`
(not under src/) shows the context menu. -/
def View_ShowContextMenu (p : Point) (is_mouse_gesture : Bool) (w : World) : World :=
  w.call (Call.View_ShowContextMenu p is_mouse_gesture)

/-- Modelled from the spec: `View::GetFocusManager()` (not under src/). -/
def GetFocusManager (w : World) : Ptr := w.focus_manager

/-- Modelled from the spec: `FocusManager::SetFocusedView` (not under src/). -/
def SetFocusedView (focus_manager : Ptr) (view : Ptr) (w : World) : World :=
  w.call (Call.SetFocusedView focus_manager view)

/-- Modelled from the spec: `View::NotifyAccessibilityEvent` (not under src/), called on
the view `view`. -/
def NotifyAccessibilityEvent (view : Ptr) (event_type : AccessibilityTypes)
    (send_native_event : Bool) (w : World) : World :=
  w.call (Call.NotifyAccessibilityEvent view event_type send_native_event)

/-- Modelled from the spec: the virtual `OnKeyDown` (declared in the header, not under
src/); the subclass decides whether it consumes the key. -/
def OnKeyDown (virtual_key_code : Int) (w : World) : Bool × World :=
  (w.on_key_down virtual_key_code, w.call (Call.OnKeyDown virtual_key_code))

/-! ## native_control_win.cpp -/

/-- The constructor `NativeControlWin::NativeControlWin() {}` (line 22) run in the
surroundings `w`.  Its body is empty; the base-class constructors (not under src/) are
modelled from the spec: a new control has no handle, no window was created for it and it made
no call yet. -/
def NativeControlWin (w : World) : World :=
  { w with native_view_ := 0, windows := [], trace := [] }

/-- The destructor `NativeControlWin::~NativeControlWin` (lines 24-35). -/
def destructor (w : World) : World :=
  let hwnd := native_view w
  if hwnd ≠ 0 then
    let w := Detach w
    DestroyWindow hwnd w
  else w

/-- The method `NativeControlWin::ShowContextMenu` (lines 137-152). -/
def ShowContextMenu (location : Point) (w : World) : World :=
  if GetContextMenuController w = 0 then
    w
  else if location.x = -1 ∧ location.y = -1 then
    View_ShowContextMenu (GetKeyboardContextMenuLocation w) false w
  else
    View_ShowContextMenu location true w

/-- The `while(ancestor)` loop of `GetControlColor` (lines 210-225): `chain` is the list of
views from `ancestor` up to the root, `ancestor = ancestor->GetParent()` steps to its tail,
and the empty list is the null pointer that ends the loop. -/
def GetControlColor_loop : List View → World → LRESULT × World
  | [], w => GetSysColorBrush COLOR_BTNFACE w
  | ancestor :: chain, w =>
    match ancestor.background with
    | some background =>
      let brush := background.GetNativeControlBrush
      if brush ≠ 0 then (brush, w) else GetControlColor_loop chain w
    | none => GetControlColor_loop chain w

/-- The method `NativeControlWin::GetControlColor` (lines 207-226); the walk starts at
`this`. -/
def GetControlColor (_message : UINT) (_dc : HDC) (_sender : HWND) (w : World) :
    LRESULT × World :=
  GetControlColor_loop (w.self :: w.ancestors) w

/-- The method `NativeControlWin::ProcessMessage` (lines 37-53); `result` is the initial
`*result`, and the returned triple is the return value, the final `*result` and the world. -/
def ProcessMessage (message : UINT) (w_param : WPARAM) (l_param : LPARAM) (result : LRESULT)
    (w : World) : Bool × LRESULT × World :=
  if message = WM_CONTEXTMENU then
    let w := ShowContextMenu ⟨GET_X_LPARAM l_param, GET_Y_LPARAM l_param⟩ w
    (true, 0, w)
  else if message = WM_CTLCOLORBTN ∨ message = WM_CTLCOLORSTATIC then
    let r := GetControlColor message w_param (native_view w) w
    (true, r.1, r.2)
  else
    (false, result, w)

/-- The method `NativeControlWin::SetEnabled` (lines 58-68). -/
def SetEnabled (enabled : Bool) (w : World) : World :=
  if IsEnabled w ≠ enabled then
    let w := View_SetEnabled enabled w
    if native_view w ≠ 0 then
      EnableWindow (native_view w) (IsEnabled w) w
    else w
  else w

/-- The method `NativeControlWin::NativeControlCreated` (lines 154-174). -/
def NativeControlCreated (native_control : HWND) (w : World) : World :=
  let w := SetProp native_control w
  let r := SetWindowProc native_control WNDPROC.NativeControlWndProc w
  let w := { r.2 with original_wndproc_ := r.1 }
  let w := Attach native_control w
  let w := EnableWindow (native_view w) (IsEnabled w) w
  SendMessage (native_view w) WM_CHANGEUISTATE (MAKEWPARAM UIS_CLEAR UISF_HIDEFOCUS) 0 w

/-- Modelled from the spec: `CreateNativeControl` is pure virtual in this class and
implemented by subclasses outside src/.  Per its contract the subclass creates the window
and hands it to `NativeControlCreated`; `next_hwnd` says which window that is (`none`: the
subclass creates nothing). -/
def CreateNativeControl (w : World) : World :=
  let w := w.call Call.CreateNativeControl
  match w.next_hwnd with
  | none => w
  | some hwnd => NativeControlCreated hwnd (CreateWindowEx hwnd w)

/-- The method `NativeControlWin::ViewHierarchyChanged` (lines 70-82). -/
def ViewHierarchyChanged (is_add : Bool) (parent child : Ptr) (w : World) : World :=
  let w := NativeViewHost_ViewHierarchyChanged is_add parent child w
  if is_add = true ∧ GetWidget w ≠ 0 ∧ native_view w = 0 then
    CreateNativeControl w
  else w

/-- The method `NativeControlWin::VisibilityChanged` (lines 84-110). -/
def VisibilityChanged (_starting_from : Ptr) (_is_visible : Bool) (w : World) : World :=
  let visible := IsVisibleInRootView w
  let w :=
    if visible = false ∧ native_view w ≠ 0 then
      let hwnd := native_view w
      let w := Detach w
      DestroyWindow hwnd w
    else if visible = true ∧ native_view w = 0 then
      if GetWidget w ≠ 0 then CreateNativeControl w else w
    else w
  if visible = true then Layout w else w

/-- The method `NativeControlWin::Focus` (lines 112-132).  `HasFocus` is the parent view's
`HasFocus()` (not under src/): a query that may read the whole world at the moment of the
call. -/
def Focus (HasFocus : View → World → Bool) (w : World) : Except Fault World :=
  if native_view w = 0 then
    Except.error Fault.DCHECK
  else
    let w := SetFocus (native_view w) w
    match GetParent w with
    | none => Except.error Fault.NullDereference
    | some parent_view =>
      let send_native_event := HasFocus parent_view w
      Except.ok
        (NotifyAccessibilityEvent parent_view.id AccessibilityTypes.EVENT_FOCUS
          send_native_event w)

/-- The tail of `NativeControlWndProc` (lines 261-262): forward to the original procedure. -/
def forward (window : HWND) (message : UINT) (w_param : WPARAM) (l_param : LPARAM)
    (w : World) : LRESULT × World :=
  CallWindowProc w.original_wndproc_ window message w_param l_param w

/-- The static `NativeControlWin::NativeControlWndProc` (lines 229-263). -/
def NativeControlWndProc (window : HWND) (message : UINT) (w_param : WPARAM)
    (l_param : LPARAM) (w : World) : Except Fault (LRESULT × World) :=
  if GetProp window w = false then
    Except.error Fault.DCHECK
  else
    let k := if message = WM_KEYDOWN then OnKeyDown (static_cast_int w_param) w else (false, w)
    let w := k.2
    if k.1 = true then
      Except.ok (0, w)
    else if message = WM_SETFOCUS then
      let focus_manager := GetFocusManager w
      if focus_manager ≠ 0 then
        let w := SetFocusedView focus_manager (focus_view w) w
        Except.ok (forward window message w_param l_param w)
      else
        Except.error Fault.NOTREACHED
    else if message = WM_DESTROY then
      let w := (SetWindowProc window w.original_wndproc_ w).2
      Except.ok (forward window message w_param l_param w)
    else
      Except.ok (forward window message w_param l_param w)

/-- The loop of `GetControlColor` (lines 209-225) over raw pointers: `ancestor` is a view
pointer, `GetParent` and `background` read the view it points to, and `fuel` bounds the
number of loop tests (`none`: the bound was reached before the loop ended). -/
def GetControlColor_walk (GetParent : Ptr → Ptr) (background : Ptr → Option Background) :
    Nat → Ptr → World → Option (LRESULT × World)
  | 0, _, _ => none
  | fuel + 1, ancestor, w =>
    if ancestor = 0 then
      some (GetSysColorBrush COLOR_BTNFACE w)
    else
      match background ancestor with
      | some bg =>
        let brush := bg.GetNativeControlBrush
        if brush ≠ 0 then some (brush, w)
        else GetControlColor_walk GetParent background fuel (GetParent ancestor) w
      | none => GetControlColor_walk GetParent background fuel (GetParent ancestor) w

/-- The list `chain` is the parent chain that starts at the pointer `p`: every view of it is
at a non-null address, each is followed by its `GetParent()`, and the last one has a null
parent.  Such a list exists exactly when the parent chain is finite and acyclic. -/
def IsParentChain (GetParent : Ptr → Ptr) (background : Ptr → Option Background) :
    Ptr → List View → Prop
  | p, [] => p = 0
  | p, v :: chain =>
    p ≠ 0 ∧ v.id = p ∧ v.background = background p ∧
      IsParentChain GetParent background (GetParent p) chain

/-! ## Driving the control -/

/-- What the surroundings look like when a view-tree callback arrives: the view tree may have
changed since the last call, and the subclass may create a different window. -/
structure Env where
  visible_in_root : Bool
  widget : Ptr
  next_hwnd : Option HWND

/-- The world as the control finds it when called under `env`. -/
def World.observe (w : World) (env : Env) : World :=
  { w with
    visible_in_root := env.visible_in_root,
    widget := env.widget,
    next_hwnd := env.next_hwnd }

/-- The two view-tree callbacks, each with the surroundings it is called in. -/
inductive Callback where
  | onViewHierarchyChanged (env : Env) (is_add : Bool) (parent child : Ptr)
  | onVisibilityChanged (env : Env) (starting_from : Ptr) (is_visible : Bool)

/-- Run one callback. -/
def Callback.step : Callback → World → World
  | Callback.onViewHierarchyChanged env is_add parent child, w =>
    ViewHierarchyChanged is_add parent child (w.observe env)
  | Callback.onVisibilityChanged env starting_from is_visible, w =>
    VisibilityChanged starting_from is_visible (w.observe env)

/-- Run a sequence of callbacks, first to last. -/
def callbacks (cs : List Callback) (w : World) : World :=
  cs.foldl (fun w c => c.step w) w

/-- The operations that touch the enabled state or the attached handle. -/
inductive Op where
  | setEnabled (enabled : Bool)
  | callback (c : Callback)
  | nativeControlCreated (native_control : HWND)

/-- Run one operation. -/
def Op.step : Op → World → World
  | Op.setEnabled enabled, w => SetEnabled enabled w
  | Op.callback c, w => c.step w
  | Op.nativeControlCreated native_control, w => NativeControlCreated native_control w

/-- Run a sequence of operations, first to last. -/
def run (ops : List Op) (w : World) : World :=
  ops.foldl (fun w op => op.step w) w

/-- The calls made between the world `w` and the later world `w2`. -/
def emitted (w w2 : World) : List Call :=
  w2.trace.drop w.trace.length

/-- The calls `VisibilityChanged` makes in its own body. -/
def Call.direct : Call → Bool
  | Call.Detach => true
  | Call.DestroyWindow _ => true
  | Call.CreateNativeControl => true
  | Call.Layout => true
  | _ => false

/-- The call creates a window (returns a non-null handle). -/
def Call.creates : Call → Bool
  | Call.CreateWindowEx hwnd => decide (hwnd ≠ 0)
  | _ => false

/-- The call destroys a window. -/
def Call.destroys : Call → Bool
  | Call.DestroyWindow _ => true
  | _ => false

/-- The view has a background whose native control brush is non-null. -/
def View.hasBrush (v : View) : Bool :=
  match v.background with
  | some background => decide (background.GetNativeControlBrush ≠ 0)
  | none => false

/-- The native control brush of the view's background (`0` without a background). -/
def View.brush (v : View) : HBRUSH :=
  match v.background with
  | some background => background.GetNativeControlBrush
  | none => 0

/-- A small concrete world: an enabled, detached control whose parent (view 2) has a brush,
below a root (view 3) without background; window 7 is what the subclass creates. -/
def world0 : World where
  enabled_ := true
  native_view_ := 0
  original_wndproc_ := WNDPROC.other 0
  focus_view_ := 1
  self := ⟨1, none⟩
  ancestors := [⟨2, some ⟨40⟩⟩, ⟨3, none⟩]
  visible_in_root := false
  widget := 9
  context_menu_controller := 5
  keyboard_context_menu_location := ⟨10, 20⟩
  focus_manager := 0
  next_hwnd := some 7
  on_key_down := fun k => decide (k = 13)
  win_enabled := fun _ => true
  win_proc := fun _ => WNDPROC.other 100
  win_prop := fun _ => false
  focus := 0
  windows := []
  window_proc_result := fun _ _ message _ _ => message + 1
  sys_color_brush := fun index => 1000 + index
  trace := []

/-! ## Invariants -/

/-- The enabled state is mirrored: an attached window has the enabled flag of the view. -/
def EnabledMirrored (w : World) : Prop :=
  native_view w ≠ 0 → w.win_enabled (native_view w) = IsEnabled w

/-- The windows created for the control and not yet destroyed are exactly the attached
handle, and the trace agrees: creations = destructions + live windows. -/
def OwnsAttachedOnly (w : World) : Prop :=
  w.windows = (if native_view w ≠ 0 then [native_view w] else []) ∧
  w.trace.countP Call.creates = w.trace.countP Call.destroys + w.windows.length

instance (w : World) : Decidable (EnabledMirrored w) := by
  unfold EnabledMirrored
  infer_instance

instance (w : World) : Decidable (OwnsAttachedOnly w) := by
  unfold OwnsAttachedOnly
  infer_instance

/-- The calls a subclass makes inside `CreateNativeControl`, after being entered: it creates
its window and runs `NativeControlCreated` on it. -/
def subclassCalls (w : World) : List Call :=
  match w.next_hwnd with
  | none => []
  | some h =>
    [Call.CreateWindowEx h, Call.SetProp h, Call.SetWindowProc h WNDPROC.NativeControlWndProc,
     Call.Attach h, Call.EnableWindow h (IsEnabled w),
     Call.SendMessage h WM_CHANGEUISTATE (MAKEWPARAM UIS_CLEAR UISF_HIDEFOCUS) 0]

/-! ## Enabled state (C1) -/

theorem emitted_append (w w2 : World) (l : List Call) (h : w2.trace = w.trace ++ l) :
    emitted w w2 = l := by
  simp [emitted, h]

theorem SetEnabled_trace (enabled : Bool) (w : World) (hne : IsEnabled w ≠ enabled)
    (hat : native_view w ≠ 0) :
    emitted w (SetEnabled enabled w) =
      [Call.View_SetEnabled enabled, Call.EnableWindow (native_view w) enabled] := by
  apply emitted_append
  simp [SetEnabled, hne, View_SetEnabled, EnableWindow, native_view, IsEnabled] at *
  simp [hne, hat]

theorem NativeControlCreated_trace (h : HWND) (w : World) :
    emitted w (NativeControlCreated h w) =
      [Call.SetProp h, Call.SetWindowProc h WNDPROC.NativeControlWndProc, Call.Attach h,
       Call.EnableWindow h (IsEnabled w),
       Call.SendMessage h WM_CHANGEUISTATE (MAKEWPARAM UIS_CLEAR UISF_HIDEFOCUS) 0] := by
  apply emitted_append
  simp [NativeControlCreated, SetProp, SetWindowProc, Attach, EnableWindow, SendMessage,
    World.call, native_view, IsEnabled]

theorem NativeControlCreated_state (h : HWND) (w : World) :
    native_view (NativeControlCreated h w) = h ∧
    IsEnabled (NativeControlCreated h w) = IsEnabled w ∧
    (NativeControlCreated h w).win_enabled h = IsEnabled w := by
  simp [NativeControlCreated, SetProp, SetWindowProc, Attach, EnableWindow, SendMessage,
    World.call, native_view, IsEnabled]

theorem NativeControlCreated_mirrored (h : HWND) (w : World) :
    EnabledMirrored (NativeControlCreated h w) := by
  intro _
  obtain ⟨h1, h2, h3⟩ := NativeControlCreated_state h w
  rw [h1, h2, h3]

theorem SetEnabled_mirrored (enabled : Bool) (w : World) (hw : EnabledMirrored w) :
    EnabledMirrored (SetEnabled enabled w) := by
  unfold SetEnabled
  split
  · dsimp only
    split
    · intro _
      simp [EnableWindow, native_view, IsEnabled, View_SetEnabled]
    · rename_i hat
      intro h
      exact absurd h hat
  · exact hw

theorem CreateNativeControl_mirrored (w : World) (hw : EnabledMirrored w) :
    EnabledMirrored (CreateNativeControl w) := by
  unfold CreateNativeControl
  cases hn : w.next_hwnd with
  | none =>
    simpa [World.call, hn, EnabledMirrored, native_view, IsEnabled] using hw
  | some hwnd =>
    simp only [World.call, hn]
    exact NativeControlCreated_mirrored _ _

theorem ViewHierarchyChanged_mirrored (is_add : Bool) (parent child : Ptr) (w : World)
    (hw : EnabledMirrored w) : EnabledMirrored (ViewHierarchyChanged is_add parent child w) := by
  unfold ViewHierarchyChanged
  have hb : EnabledMirrored (NativeViewHost_ViewHierarchyChanged is_add parent child w) := by
    simpa [NativeViewHost_ViewHierarchyChanged, World.call, EnabledMirrored, native_view,
      IsEnabled] using hw
  simp only
  split
  · exact CreateNativeControl_mirrored _ hb
  · exact hb

theorem Layout_mirrored (w : World) (hw : EnabledMirrored w) : EnabledMirrored (Layout w) := by
  simpa [Layout, World.call, EnabledMirrored, native_view, IsEnabled] using hw

theorem VisibilityChanged_mirrored (starting_from : Ptr) (is_visible : Bool) (w : World)
    (hw : EnabledMirrored w) :
    EnabledMirrored (VisibilityChanged starting_from is_visible w) := by
  unfold VisibilityChanged
  have hd : EnabledMirrored (DestroyWindow (native_view w) (Detach w)) := by
    intro h
    simp [DestroyWindow, Detach, native_view] at h
  simp only
  split <;> split <;> (try split) <;> (try split) <;>
    first
    | exact Layout_mirrored _ hd
    | exact Layout_mirrored _ (CreateNativeControl_mirrored _ hw)
    | exact Layout_mirrored _ hw

theorem observe_mirrored (env : Env) (w : World) (hw : EnabledMirrored w) :
    EnabledMirrored (w.observe env) := by
  simpa [World.observe, EnabledMirrored, native_view, IsEnabled] using hw

theorem Callback_step_mirrored (c : Callback) (w : World) (hw : EnabledMirrored w) :
    EnabledMirrored (c.step w) := by
  cases c with
  | onViewHierarchyChanged env is_add parent child =>
    exact ViewHierarchyChanged_mirrored is_add parent child _ (observe_mirrored env w hw)
  | onVisibilityChanged env starting_from is_visible =>
    exact VisibilityChanged_mirrored starting_from is_visible _ (observe_mirrored env w hw)

theorem Op_step_mirrored (op : Op) (w : World) (hw : EnabledMirrored w) :
    EnabledMirrored (op.step w) := by
  cases op with
  | setEnabled enabled => exact SetEnabled_mirrored enabled w hw
  | callback c => exact Callback_step_mirrored c w hw
  | nativeControlCreated h => exact NativeControlCreated_mirrored h w

theorem run_mirrored (ops : List Op) (w : World) (hw : EnabledMirrored w) :
    EnabledMirrored (run ops w) := by
  induction ops generalizing w with
  | nil => exact hw
  | cons op ops ih => exact ih (op.step w) (Op_step_mirrored op w hw)

theorem NativeControlWin_mirrored (w : World) : EnabledMirrored (NativeControlWin w) := by
  intro h
  simp [NativeControlWin, native_view] at h

/-! ## Traces of the lifecycle methods -/

theorem CreateNativeControl_trace (w : World) :
    (CreateNativeControl w).trace = w.trace ++ Call.CreateNativeControl :: subclassCalls w := by
  unfold CreateNativeControl subclassCalls
  cases hn : w.next_hwnd with
  | none => simp [World.call, hn]
  | some h =>
    simp [World.call, hn, NativeControlCreated, SetProp, SetWindowProc, Attach, EnableWindow,
      SendMessage, CreateWindowEx, native_view, IsEnabled]

theorem CreateNativeControl_native_view (w : World) :
    native_view (CreateNativeControl w) =
      (match w.next_hwnd with
       | none => native_view w
       | some h => h) := by
  unfold CreateNativeControl
  cases hn : w.next_hwnd with
  | none => simp [World.call, hn, native_view]
  | some h =>
    simp [World.call, hn, NativeControlCreated, SetProp, SetWindowProc, Attach, EnableWindow,
      SendMessage, CreateWindowEx, native_view, IsEnabled]

theorem subclassCalls_direct (w : World) : (subclassCalls w).filter Call.direct = [] := by
  unfold subclassCalls
  cases w.next_hwnd <;> simp [Call.direct]

theorem subclassCalls_no_create (w : World) : Call.CreateNativeControl ∉ subclassCalls w := by
  unfold subclassCalls
  cases w.next_hwnd <;> simp

theorem subclassCalls_no_layout (w : World) : Call.Layout ∉ subclassCalls w := by
  unfold subclassCalls
  cases w.next_hwnd <;> simp

theorem ViewHierarchyChanged_trace (is_add : Bool) (parent child : Ptr) (w : World) :
    (ViewHierarchyChanged is_add parent child w).trace =
      w.trace ++ Call.NativeViewHost_ViewHierarchyChanged is_add parent child ::
        (if is_add = true ∧ GetWidget w ≠ 0 ∧ native_view w = 0 then
          Call.CreateNativeControl :: subclassCalls w
        else []) := by
  unfold ViewHierarchyChanged
  dsimp only
  have e1 : GetWidget (NativeViewHost_ViewHierarchyChanged is_add parent child w) = GetWidget w :=
    rfl
  have e2 : native_view (NativeViewHost_ViewHierarchyChanged is_add parent child w)
      = native_view w := rfl
  have e3 : subclassCalls (NativeViewHost_ViewHierarchyChanged is_add parent child w)
      = subclassCalls w := rfl
  rw [e1, e2]
  split
  · rw [CreateNativeControl_trace, e3]
    simp [NativeViewHost_ViewHierarchyChanged, World.call]
  · simp [NativeViewHost_ViewHierarchyChanged, World.call]

theorem ViewHierarchyChanged_native_view (is_add : Bool) (parent child : Ptr) (w : World) :
    native_view (ViewHierarchyChanged is_add parent child w) =
      (if is_add = true ∧ GetWidget w ≠ 0 ∧ native_view w = 0 then
        (match w.next_hwnd with
         | none => native_view w
         | some h => h)
      else native_view w) := by
  unfold ViewHierarchyChanged
  dsimp only
  have e1 : GetWidget (NativeViewHost_ViewHierarchyChanged is_add parent child w) = GetWidget w :=
    rfl
  have e2 : native_view (NativeViewHost_ViewHierarchyChanged is_add parent child w)
      = native_view w := rfl
  rw [e1, e2]
  split
  · rw [CreateNativeControl_native_view]
    rfl
  · rfl

theorem VisibilityChanged_trace (starting_from : Ptr) (is_visible : Bool) (w : World) :
    (VisibilityChanged starting_from is_visible w).trace =
      w.trace ++
        ((if IsVisibleInRootView w = false ∧ native_view w ≠ 0 then
            [Call.Detach, Call.DestroyWindow (native_view w)]
          else if IsVisibleInRootView w = true ∧ native_view w = 0 ∧ GetWidget w ≠ 0 then
            Call.CreateNativeControl :: subclassCalls w
          else []) ++
         (if IsVisibleInRootView w = true then [Call.Layout] else [])) := by
  unfold VisibilityChanged
  cases hv : IsVisibleInRootView w <;> by_cases hn : native_view w = 0 <;>
    by_cases hg : GetWidget w = 0 <;>
    simp [hv, hn, hg, Layout, World.call, Detach, DestroyWindow, CreateNativeControl_trace]

theorem VisibilityChanged_native_view (starting_from : Ptr) (is_visible : Bool) (w : World) :
    native_view (VisibilityChanged starting_from is_visible w) =
      (if IsVisibleInRootView w = false ∧ native_view w ≠ 0 then 0
       else if IsVisibleInRootView w = true ∧ native_view w = 0 ∧ GetWidget w ≠ 0 then
        (match w.next_hwnd with
         | none => native_view w
         | some h => h)
       else native_view w) := by
  unfold VisibilityChanged
  have hl : ∀ x : World, native_view (Layout x) = native_view x := fun _ => rfl
  cases hv : IsVisibleInRootView w <;> by_cases hn : native_view w = 0 <;>
    by_cases hg : GetWidget w = 0 <;>
    simp [hv, hn, hg, hl, CreateNativeControl_native_view] <;>
    simp [Detach, DestroyWindow, native_view]

theorem destructor_trace (w : World) :
    (destructor w).trace =
      w.trace ++ (if native_view w ≠ 0 then [Call.Detach, Call.DestroyWindow (native_view w)]
                  else []) := by
  unfold destructor
  by_cases hn : native_view w = 0 <;> simp [hn, Detach, DestroyWindow]

theorem destructor_native_view (w : World) : native_view (destructor w) = 0 := by
  unfold destructor native_view
  by_cases hn : w.native_view_ = 0 <;> simp [hn, Detach, DestroyWindow]

/-! ## One window at a time (C2) -/

theorem NativeControlWin_owns (w : World) : OwnsAttachedOnly (NativeControlWin w) := by
  simp [OwnsAttachedOnly, NativeControlWin, native_view]

theorem observe_owns (env : Env) (w : World) (hw : OwnsAttachedOnly w) :
    OwnsAttachedOnly (w.observe env) := hw

theorem call_owns (c : Call) (w : World) (hc : c.creates = false) (hd : c.destroys = false)
    (hw : OwnsAttachedOnly w) : OwnsAttachedOnly (w.call c) := by
  obtain ⟨h1, h2⟩ := hw
  refine ⟨h1, ?_⟩
  simp [World.call, List.countP_append, List.countP_cons, hc, hd, h2]

theorem CreateNativeControl_owns (w : World) (hw : OwnsAttachedOnly w)
    (hd : native_view w = 0) : OwnsAttachedOnly (CreateNativeControl w) := by
  obtain ⟨h1, h2⟩ := hw
  simp only [native_view] at hd h1
  simp only [hd, ne_eq, not_true_eq_false, if_false] at h1
  simp only [h1, List.length_nil, Nat.add_zero] at h2
  unfold OwnsAttachedOnly CreateNativeControl
  cases hn : w.next_hwnd with
  | none =>
    simp [World.call, hn, native_view, hd, h1, h2, Call.creates, Call.destroys,
      List.countP_append, List.countP_cons]
  | some h =>
    by_cases hh : h = 0 <;>
      simp [World.call, hn, NativeControlCreated, SetProp, SetWindowProc, Attach, EnableWindow,
        SendMessage, CreateWindowEx, native_view, IsEnabled, hh, h1, h2, Call.creates,
        Call.destroys, List.countP_append, List.countP_cons]

theorem detach_destroy_owns (w : World) (hw : OwnsAttachedOnly w) (ha : native_view w ≠ 0) :
    OwnsAttachedOnly (DestroyWindow (native_view w) (Detach w)) := by
  obtain ⟨h1, h2⟩ := hw
  simp only [native_view] at ha h1
  simp only [ha, ne_eq, not_false_eq_true, if_true] at h1
  simp only [h1, List.length_singleton] at h2
  simp [OwnsAttachedOnly, DestroyWindow, Detach, native_view, h1, h2, Call.creates,
    Call.destroys, List.countP_append, List.countP_cons]

theorem ViewHierarchyChanged_owns (is_add : Bool) (parent child : Ptr) (w : World)
    (hw : OwnsAttachedOnly w) : OwnsAttachedOnly (ViewHierarchyChanged is_add parent child w) := by
  unfold ViewHierarchyChanged
  have hb : OwnsAttachedOnly (NativeViewHost_ViewHierarchyChanged is_add parent child w) :=
    call_owns _ w rfl rfl hw
  dsimp only
  split
  · rename_i hc
    exact CreateNativeControl_owns _ hb hc.2.2
  · exact hb

theorem VisibilityChanged_owns (starting_from : Ptr) (is_visible : Bool) (w : World)
    (hw : OwnsAttachedOnly w) :
    OwnsAttachedOnly (VisibilityChanged starting_from is_visible w) := by
  unfold VisibilityChanged
  have hl : ∀ x : World, OwnsAttachedOnly x → OwnsAttachedOnly (Layout x) :=
    fun x hx => call_owns _ x rfl rfl hx
  have hmid : OwnsAttachedOnly
      (if IsVisibleInRootView w = false ∧ native_view w ≠ 0 then
        DestroyWindow (native_view w) (Detach w)
      else if IsVisibleInRootView w = true ∧ native_view w = 0 then
        if GetWidget w ≠ 0 then CreateNativeControl w else w
      else w) := by
    split
    · rename_i hc
      exact detach_destroy_owns w hw hc.2
    · split
      · rename_i hc
        split
        · exact CreateNativeControl_owns w hw hc.2
        · exact hw
      · exact hw
  dsimp only
  split
  · exact hl _ hmid
  · exact hmid

theorem destructor_owns (w : World) (hw : OwnsAttachedOnly w) :
    OwnsAttachedOnly (destructor w) := by
  unfold destructor
  dsimp only
  split
  · rename_i hc
    exact detach_destroy_owns w hw hc
  · exact hw

theorem Callback_step_owns (c : Callback) (w : World) (hw : OwnsAttachedOnly w) :
    OwnsAttachedOnly (c.step w) := by
  cases c with
  | onViewHierarchyChanged env is_add parent child =>
    exact ViewHierarchyChanged_owns is_add parent child _ (observe_owns env w hw)
  | onVisibilityChanged env starting_from is_visible =>
    exact VisibilityChanged_owns starting_from is_visible _ (observe_owns env w hw)

theorem callbacks_owns (cs : List Callback) (w : World) (hw : OwnsAttachedOnly w) :
    OwnsAttachedOnly (callbacks cs w) := by
  induction cs generalizing w with
  | nil => exact hw
  | cons c cs ih => exact ih (c.step w) (Callback_step_owns c w hw)

theorem owns_length_le_one (w : World) (hw : OwnsAttachedOnly w) : w.windows.length ≤ 1 := by
  rw [hw.1]
  split <;> simp

/-! ## Emitted calls of the lifecycle methods -/

theorem ViewHierarchyChanged_emitted (is_add : Bool) (parent child : Ptr) (w : World) :
    emitted w (ViewHierarchyChanged is_add parent child w) =
      Call.NativeViewHost_ViewHierarchyChanged is_add parent child ::
        (if is_add = true ∧ GetWidget w ≠ 0 ∧ native_view w = 0 then
          Call.CreateNativeControl :: subclassCalls w
        else []) :=
  emitted_append w _ _ (ViewHierarchyChanged_trace is_add parent child w)

theorem VisibilityChanged_emitted (starting_from : Ptr) (is_visible : Bool) (w : World) :
    emitted w (VisibilityChanged starting_from is_visible w) =
      (if IsVisibleInRootView w = false ∧ native_view w ≠ 0 then
          [Call.Detach, Call.DestroyWindow (native_view w)]
        else if IsVisibleInRootView w = true ∧ native_view w = 0 ∧ GetWidget w ≠ 0 then
          Call.CreateNativeControl :: subclassCalls w
        else []) ++
       (if IsVisibleInRootView w = true then [Call.Layout] else []) :=
  emitted_append w _ _ (VisibilityChanged_trace starting_from is_visible w)

theorem VisibilityChanged_direct (starting_from : Ptr) (is_visible : Bool) (w : World) :
    (emitted w (VisibilityChanged starting_from is_visible w)).filter Call.direct =
      (if IsVisibleInRootView w = false ∧ native_view w ≠ 0 then
          [Call.Detach, Call.DestroyWindow (native_view w)]
        else if IsVisibleInRootView w = true ∧ native_view w = 0 ∧ GetWidget w ≠ 0 then
          [Call.CreateNativeControl]
        else []) ++
       (if IsVisibleInRootView w = true then [Call.Layout] else []) := by
  rw [VisibilityChanged_emitted, List.filter_append]
  congr 1
  · split
    · simp [Call.direct]
    · split
      · simp [Call.direct, subclassCalls_direct]
      · simp
  · split <;> simp [Call.direct]

theorem destructor_emitted (w : World) :
    emitted w (destructor w) =
      (if native_view w ≠ 0 then [Call.Detach, Call.DestroyWindow (native_view w)] else []) :=
  emitted_append w _ _ (destructor_trace w)

theorem Callback_step_create (w : World) (c : Callback)
    (h : Call.CreateNativeControl ∈ emitted w (c.step w)) : native_view w = 0 := by
  cases c with
  | onViewHierarchyChanged env is_add parent child =>
    have e : emitted w (ViewHierarchyChanged is_add parent child (w.observe env)) = _ :=
      ViewHierarchyChanged_emitted is_add parent child (w.observe env)
    simp only [Callback.step] at h
    rw [e] at h
    by_cases hc : is_add = true ∧ GetWidget (w.observe env) ≠ 0 ∧ native_view (w.observe env) = 0
    · exact hc.2.2
    · simp [hc] at h
  | onVisibilityChanged env starting_from is_visible =>
    have e : emitted w (VisibilityChanged starting_from is_visible (w.observe env)) = _ :=
      VisibilityChanged_emitted starting_from is_visible (w.observe env)
    simp only [Callback.step] at h
    rw [e] at h
    by_cases h1 : IsVisibleInRootView (w.observe env) = false ∧ native_view (w.observe env) ≠ 0
    · simp [h1] at h
    · by_cases h2 : IsVisibleInRootView (w.observe env) = true ∧ native_view (w.observe env) = 0
          ∧ GetWidget (w.observe env) ≠ 0
      · exact h2.2.1
      · simp only [h1, h2, if_false, List.nil_append] at h
        cases hv : IsVisibleInRootView (w.observe env) <;> simp [hv] at h

/-! ## Claims about the lifecycle and the enabled state -/

/-- C1 (enabled-state mirroring).  In every state reached from a freshly constructed control
by any sequence of `SetEnabled`, `ViewHierarchyChanged`, `VisibilityChanged` and
`NativeControlCreated`, an attached window has the enabled flag of the view.  In particular
`SetEnabled(e)` that changes the flag while a handle is attached calls
`EnableWindow(handle, e)`; `NativeControlCreated(h)` attaches `h` and then calls
`EnableWindow(h, IsEnabled())`; and a `SetEnabled(e)` issued while detached calls no
`EnableWindow` but is replayed onto the next created handle. -/
theorem C1_enabled_state_mirrored (w0 : World) (ops : List Op) :
    (native_view (run ops (NativeControlWin w0)) ≠ 0 →
      (run ops (NativeControlWin w0)).win_enabled (native_view (run ops (NativeControlWin w0)))
        = IsEnabled (run ops (NativeControlWin w0))) ∧
    (∀ (w : World) (e : Bool), IsEnabled w ≠ e → native_view w ≠ 0 →
      emitted w (SetEnabled e w) =
        [Call.View_SetEnabled e, Call.EnableWindow (native_view w) e]) ∧
    (∀ (w : World) (h : HWND),
      emitted w (NativeControlCreated h w) =
        [Call.SetProp h, Call.SetWindowProc h WNDPROC.NativeControlWndProc, Call.Attach h,
         Call.EnableWindow h (IsEnabled w),
         Call.SendMessage h WM_CHANGEUISTATE (MAKEWPARAM UIS_CLEAR UISF_HIDEFOCUS) 0] ∧
      native_view (NativeControlCreated h w) = h) ∧
    (∀ (w : World) (e : Bool) (h : HWND), native_view w = 0 →
      (∀ (x : HWND) (b : Bool), Call.EnableWindow x b ∉ emitted w (SetEnabled e w)) ∧
      IsEnabled (NativeControlCreated h (SetEnabled e w)) = e ∧
      (NativeControlCreated h (SetEnabled e w)).win_enabled h = e ∧
      Call.EnableWindow h e ∈
        emitted (SetEnabled e w) (NativeControlCreated h (SetEnabled e w))) := by
  refine ⟨run_mirrored ops _ (NativeControlWin_mirrored w0),
    fun w e hne hat => SetEnabled_trace e w hne hat, ?_, ?_⟩
  · intro w h
    exact ⟨NativeControlCreated_trace h w, (NativeControlCreated_state h w).1⟩
  · intro w e h hd
    have he : IsEnabled (SetEnabled e w) = e := by
      unfold SetEnabled native_view IsEnabled
      simp only [native_view] at hd
      by_cases hne : w.enabled_ = e <;> simp [hne, View_SetEnabled, hd]
    have ht : emitted w (SetEnabled e w) = [] ∨ emitted w (SetEnabled e w) = [Call.View_SetEnabled e] := by
      unfold SetEnabled native_view IsEnabled
      simp only [native_view] at hd
      by_cases hne : w.enabled_ = e
      · left
        apply emitted_append
        simp [hne]
      · right
        apply emitted_append
        simp [hne, View_SetEnabled, hd]
    obtain ⟨s1, s2, s3⟩ := NativeControlCreated_state h (SetEnabled e w)
    refine ⟨?_, ?_, ?_, ?_⟩
    · intro x b
      rcases ht with ht | ht <;> simp [ht]
    · rw [s2, he]
    · rw [s3, he]
    · rw [NativeControlCreated_trace, he]
      simp

/-- C1, at a concrete run: disabling a detached control and then adding it to a widget leaves
window 7 attached and disabled. -/
theorem C1_enabled_state_mirrored_witness :
    native_view (run [Op.setEnabled false,
        Op.callback (Callback.onViewHierarchyChanged ⟨false, 9, some 7⟩ true 2 1)]
        (NativeControlWin world0)) ≠ 0 ∧
    (run [Op.setEnabled false,
        Op.callback (Callback.onViewHierarchyChanged ⟨false, 9, some 7⟩ true 2 1)]
        (NativeControlWin world0)).win_enabled 7 = false :=
  ⟨by decide,
   (C1_enabled_state_mirrored world0 [Op.setEnabled false,
      Op.callback (Callback.onViewHierarchyChanged ⟨false, 9, some 7⟩ true 2 1)]).1 (by decide)⟩

/-- C2 (at most one native handle).  A callback invokes `CreateNativeControl` only from a
state where `native_view()` is null; `ViewHierarchyChanged` never detaches; a handle that
`VisibilityChanged` or the destructor detaches is passed to `DestroyWindow` right after
`Detach` in the same operation.  Hence, after any sequence of callbacks on a freshly
constructed control, the windows created and not yet destroyed are exactly the attached
handle (at most one, and the trace has at most one more creation than destructions), and
after the destructor there is none. -/
theorem C2_at_most_one_handle (w0 : World) (cs : List Callback) :
    (∀ (w : World) (c : Callback),
      Call.CreateNativeControl ∈ emitted w (c.step w) → native_view w = 0) ∧
    (∀ (w : World) (is_add : Bool) (parent child : Ptr), native_view w ≠ 0 →
      native_view (ViewHierarchyChanged is_add parent child w) = native_view w) ∧
    (∀ (w : World) (starting_from : Ptr) (is_visible : Bool), native_view w ≠ 0 →
      native_view (VisibilityChanged starting_from is_visible w) ≠ native_view w →
      native_view (VisibilityChanged starting_from is_visible w) = 0 ∧
      emitted w (VisibilityChanged starting_from is_visible w) =
        [Call.Detach, Call.DestroyWindow (native_view w)]) ∧
    (∀ w : World, native_view w ≠ 0 →
      native_view (destructor w) = 0 ∧
      emitted w (destructor w) = [Call.Detach, Call.DestroyWindow (native_view w)]) ∧
    (callbacks cs (NativeControlWin w0)).windows =
      (if native_view (callbacks cs (NativeControlWin w0)) ≠ 0 then
        [native_view (callbacks cs (NativeControlWin w0))] else []) ∧
    (callbacks cs (NativeControlWin w0)).windows.length ≤ 1 ∧
    (callbacks cs (NativeControlWin w0)).trace.countP Call.creates =
      (callbacks cs (NativeControlWin w0)).trace.countP Call.destroys
        + (callbacks cs (NativeControlWin w0)).windows.length ∧
    (destructor (callbacks cs (NativeControlWin w0))).windows.length = 0 ∧
    (destructor (callbacks cs (NativeControlWin w0))).trace.countP Call.creates =
      (destructor (callbacks cs (NativeControlWin w0))).trace.countP Call.destroys := by
  have hinv := callbacks_owns cs _ (NativeControlWin_owns w0)
  have hdes := destructor_owns _ hinv
  refine ⟨Callback_step_create, ?_, ?_, ?_, hinv.1, owns_length_le_one _ hinv, hinv.2, ?_, ?_⟩
  · intro w is_add parent child ha
    rw [ViewHierarchyChanged_native_view]
    simp [ha]
  · intro w starting_from is_visible ha hne
    rw [VisibilityChanged_native_view] at hne ⊢
    rw [VisibilityChanged_emitted]
    cases hv : IsVisibleInRootView w
    · simp [ha]
    · simp [hv, ha] at hne
  · intro w ha
    refine ⟨destructor_native_view w, ?_⟩
    rw [destructor_emitted]
    simp [ha]
  · have h := hdes.1
    rw [destructor_native_view] at h
    simp [h]
  · have h := hdes.1
    rw [destructor_native_view] at h
    have h2 := hdes.2
    simp only [ne_eq, not_true_eq_false, if_false] at h
    simpa [h] using h2

/-- C2, at a concrete run: a control added while hidden (window 7 created), made visible and
hidden again (window 7 destroyed), then shown again with the subclass creating window 8: one
live window, two creations and one destruction. -/
theorem C2_at_most_one_handle_witness :
    (callbacks
      [Callback.onViewHierarchyChanged ⟨false, 9, some 7⟩ true 2 1,
       Callback.onVisibilityChanged ⟨true, 9, some 8⟩ 2 true,
       Callback.onVisibilityChanged ⟨false, 9, some 8⟩ 2 false,
       Callback.onVisibilityChanged ⟨true, 9, some 8⟩ 2 true] (NativeControlWin world0)).windows
      = [8] ∧
    (callbacks
      [Callback.onViewHierarchyChanged ⟨false, 9, some 7⟩ true 2 1,
       Callback.onVisibilityChanged ⟨true, 9, some 8⟩ 2 true,
       Callback.onVisibilityChanged ⟨false, 9, some 8⟩ 2 false,
       Callback.onVisibilityChanged ⟨true, 9, some 8⟩ 2 true]
      (NativeControlWin world0)).trace.countP Call.creates = 1 + 1 :=
  ⟨(C2_at_most_one_handle world0
      [Callback.onViewHierarchyChanged ⟨false, 9, some 7⟩ true 2 1,
       Callback.onVisibilityChanged ⟨true, 9, some 8⟩ 2 true,
       Callback.onVisibilityChanged ⟨false, 9, some 8⟩ 2 false,
       Callback.onVisibilityChanged ⟨true, 9, some 8⟩ 2 true]).2.2.2.2.1,
   (C2_at_most_one_handle world0
      [Callback.onViewHierarchyChanged ⟨false, 9, some 7⟩ true 2 1,
       Callback.onVisibilityChanged ⟨true, 9, some 8⟩ 2 true,
       Callback.onVisibilityChanged ⟨false, 9, some 8⟩ 2 false,
       Callback.onVisibilityChanged ⟨true, 9, some 8⟩ 2 true]).2.2.2.2.2.2.1⟩

/-- C3 (destroy-on-hide postcondition of `VisibilityChanged`).  The result does not depend on
the arguments, and the calls the method makes in its own body are determined by
`IsVisibleInRootView()`, whether `GetWidget()` is null, and `native_view()`.  Hidden with a
handle `h`: afterwards no handle is attached and the calls are exactly `Detach` then
`DestroyWindow(h)` (no `Layout`).  Visible without a handle: `CreateNativeControl` is called
exactly when `GetWidget()` is non-null, at most once.  Visible with a handle: the handle is
unchanged and nothing is created or destroyed.  Hidden without a handle: nothing happens.
`Layout` is called exactly when the view is visible. -/
theorem C3_VisibilityChanged_postcondition (w : World) (starting_from : Ptr)
    (is_visible : Bool) :
    (∀ (starting_from2 : Ptr) (is_visible2 : Bool),
      VisibilityChanged starting_from2 is_visible2 w
        = VisibilityChanged starting_from is_visible w) ∧
    (∀ (w2 : World) (starting_from2 : Ptr) (is_visible2 : Bool),
      IsVisibleInRootView w2 = IsVisibleInRootView w →
      (GetWidget w2 ≠ 0 ↔ GetWidget w ≠ 0) →
      native_view w2 = native_view w →
      (emitted w2 (VisibilityChanged starting_from2 is_visible2 w2)).filter Call.direct
        = (emitted w (VisibilityChanged starting_from is_visible w)).filter Call.direct) ∧
    (IsVisibleInRootView w = false → native_view w ≠ 0 →
      native_view (VisibilityChanged starting_from is_visible w) = 0 ∧
      emitted w (VisibilityChanged starting_from is_visible w)
        = [Call.Detach, Call.DestroyWindow (native_view w)] ∧
      Call.Layout ∉ emitted w (VisibilityChanged starting_from is_visible w)) ∧
    (IsVisibleInRootView w = true → native_view w = 0 →
      (Call.CreateNativeControl ∈ emitted w (VisibilityChanged starting_from is_visible w)
        ↔ GetWidget w ≠ 0) ∧
      (emitted w (VisibilityChanged starting_from is_visible w)).count Call.CreateNativeControl
        ≤ 1) ∧
    (IsVisibleInRootView w = true → native_view w ≠ 0 →
      native_view (VisibilityChanged starting_from is_visible w) = native_view w ∧
      emitted w (VisibilityChanged starting_from is_visible w) = [Call.Layout]) ∧
    (IsVisibleInRootView w = false → native_view w = 0 →
      VisibilityChanged starting_from is_visible w = w) ∧
    (Call.Layout ∈ emitted w (VisibilityChanged starting_from is_visible w)
      ↔ IsVisibleInRootView w = true) := by
  refine ⟨fun _ _ => rfl, ?_, ?_, ?_, ?_, ?_, ?_⟩
  · intro w2 sf2 v2 hv hg hn
    rw [VisibilityChanged_direct, VisibilityChanged_direct, hv, hn]
    by_cases g : GetWidget w = 0
    · have g2 : GetWidget w2 = 0 := by
        by_contra hc
        exact (hg.1 hc) g
      simp [g, g2]
    · have g2 : GetWidget w2 ≠ 0 := hg.2 g
      simp [g, g2]
  · intro hv ha
    rw [VisibilityChanged_native_view, VisibilityChanged_emitted]
    simp [hv, ha]
  · intro hv hd
    rw [VisibilityChanged_emitted]
    have hs := subclassCalls_no_create w
    by_cases g : GetWidget w = 0
    · simp [hv, hd, g]
    · simp [hv, hd, g, List.count_cons, List.count_eq_zero_of_not_mem hs]
  · intro hv ha
    rw [VisibilityChanged_native_view, VisibilityChanged_emitted]
    simp [hv, ha]
  · intro hv hd
    unfold VisibilityChanged
    simp [hv, hd]
  · rw [VisibilityChanged_emitted]
    have hs := subclassCalls_no_layout w
    cases hv : IsVisibleInRootView w <;> by_cases hn : native_view w = 0 <;>
      by_cases g : GetWidget w = 0 <;> simp [hv, hn, g, hs]

/-- C3, at a concrete state: a hidden control holding window 7 loses it. -/
theorem C3_VisibilityChanged_postcondition_witness :
    native_view (VisibilityChanged 2 true { world0 with native_view_ := 7 }) = 0 ∧
    emitted { world0 with native_view_ := 7 }
        (VisibilityChanged 2 true { world0 with native_view_ := 7 })
      = [Call.Detach, Call.DestroyWindow 7] ∧
    Call.Layout ∉ emitted { world0 with native_view_ := 7 }
        (VisibilityChanged 2 true { world0 with native_view_ := 7 }) :=
  (C3_VisibilityChanged_postcondition { world0 with native_view_ := 7 } 2 true).2.2.1
    rfl (by decide)

/-- C4 (create-on-add).  `ViewHierarchyChanged` first runs the base-class handler and then
calls `CreateNativeControl` (immediately after it, once) if and only if `is_add` is true,
`GetWidget()` is non-null and `native_view()` is null.  On a removal, without a widget, or
with a handle already attached, the base-class handler is the only call and the attached
handle is unchanged. -/
theorem C4_create_on_add (w : World) (is_add : Bool) (parent child : Ptr) :
    (∃ rest : List Call,
      emitted w (ViewHierarchyChanged is_add parent child w)
        = Call.NativeViewHost_ViewHierarchyChanged is_add parent child :: rest ∧
      (Call.CreateNativeControl ∈ rest
        ↔ (is_add = true ∧ GetWidget w ≠ 0 ∧ native_view w = 0)) ∧
      (Call.CreateNativeControl ∈ rest → rest.head? = some Call.CreateNativeControl) ∧
      rest.count Call.CreateNativeControl ≤ 1) ∧
    (is_add = false ∨ GetWidget w = 0 ∨ native_view w ≠ 0 →
      emitted w (ViewHierarchyChanged is_add parent child w)
        = [Call.NativeViewHost_ViewHierarchyChanged is_add parent child] ∧
      native_view (ViewHierarchyChanged is_add parent child w) = native_view w) := by
  have hs := subclassCalls_no_create w
  constructor
  · refine ⟨_, ViewHierarchyChanged_emitted is_add parent child w, ?_, ?_, ?_⟩
    · by_cases hc : is_add = true ∧ GetWidget w ≠ 0 ∧ native_view w = 0
      · simp [hc]
      · simp only [hc, if_false, iff_false]
        exact List.not_mem_nil _
    · by_cases hc : is_add = true ∧ GetWidget w ≠ 0 ∧ native_view w = 0
      · simp [hc]
      · simp only [hc, if_false]
        intro h
        exact absurd h (List.not_mem_nil _)
    · by_cases hc : is_add = true ∧ GetWidget w ≠ 0 ∧ native_view w = 0
      · simp [hc, List.count_cons, List.count_eq_zero_of_not_mem hs]
      · simp [hc]
  · intro h
    have hc : ¬ (is_add = true ∧ GetWidget w ≠ 0 ∧ native_view w = 0) := by
      rintro ⟨h1, h2, h3⟩
      rcases h with h | h | h
      · rw [h1] at h
        exact Bool.noConfusion h
      · exact h2 h
      · exact h h3
    rw [ViewHierarchyChanged_emitted, ViewHierarchyChanged_native_view]
    simp [hc]

/-- C4, at a concrete state: with a handle already attached an add creates nothing. -/
theorem C4_create_on_add_witness :
    emitted { world0 with native_view_ := 7 }
        (ViewHierarchyChanged true 2 1 { world0 with native_view_ := 7 })
      = [Call.NativeViewHost_ViewHierarchyChanged true 2 1] ∧
    native_view (ViewHierarchyChanged true 2 1 { world0 with native_view_ := 7 }) = 7 :=
  (C4_create_on_add { world0 with native_view_ := 7 } true 2 1).2 (Or.inr (Or.inr (by decide)))

/-- C5 as stated fails: a freshly constructed control that is added to a widget while it is
not visible in its root view goes from detached to attached (window 7), so an attached handle
does not imply visibility, and a detached control does become attached while invisible.  When
the view is later removed and `GetWidget()` has become null, the handle stays attached, so an
attached handle does not imply a widget either. -/
theorem C5_counterexample :
    native_view (NativeControlWin world0) = 0 ∧
    native_view (callbacks [Callback.onViewHierarchyChanged ⟨false, 9, some 7⟩ true 2 1]
      (NativeControlWin world0)) = 7 ∧
    IsVisibleInRootView (callbacks [Callback.onViewHierarchyChanged ⟨false, 9, some 7⟩ true 2 1]
      (NativeControlWin world0)) = false ∧
    native_view (callbacks [Callback.onViewHierarchyChanged ⟨false, 9, some 7⟩ true 2 1,
      Callback.onViewHierarchyChanged ⟨false, 0, none⟩ false 2 1]
      (NativeControlWin world0)) = 7 ∧
    GetWidget (callbacks [Callback.onViewHierarchyChanged ⟨false, 9, some 7⟩ true 2 1,
      Callback.onViewHierarchyChanged ⟨false, 0, none⟩ false 2 1]
      (NativeControlWin world0)) = 0 ∧
    ¬ (∀ (w0 : World) (cs : List Callback),
        native_view (callbacks cs (NativeControlWin w0)) ≠ 0 →
        IsVisibleInRootView (callbacks cs (NativeControlWin w0)) = true ∧
        GetWidget (callbacks cs (NativeControlWin w0)) ≠ 0) := by
  refine ⟨rfl, rfl, rfl, rfl, rfl, ?_⟩
  intro h
  have h2 := (h world0 [Callback.onViewHierarchyChanged ⟨false, 9, some 7⟩ true 2 1]
    (by decide)).1
  exact Bool.noConfusion h2

/-- C5 as amended.  The control is either detached or attached, and one callback changes that
only as follows.  Detached to attached: only in a call during which `GetWidget()` is
non-null, and that call is either `ViewHierarchyChanged` with `is_add` true (whatever the
visibility) or `VisibilityChanged` while the view is visible in its root view.  Attached to
detached: only in `VisibilityChanged` while the view is not visible in its root view.  An
attached handle is never replaced by another one.  Right after `VisibilityChanged` an
attached handle implies that the view is visible in its root view. -/
theorem C5_transitions (w : World) (c : Callback) :
    (native_view w = 0 ∨ native_view w ≠ 0) ∧
    (native_view w = 0 → native_view (c.step w) ≠ 0 →
      GetWidget (c.step w) ≠ 0 ∧
      ((∃ (env : Env) (parent child : Ptr),
          c = Callback.onViewHierarchyChanged env true parent child ∧ env.widget ≠ 0) ∨
       (∃ (env : Env) (starting_from : Ptr) (is_visible : Bool),
          c = Callback.onVisibilityChanged env starting_from is_visible ∧
          env.visible_in_root = true ∧ env.widget ≠ 0))) ∧
    (native_view w ≠ 0 → native_view (c.step w) = 0 →
      IsVisibleInRootView (c.step w) = false ∧
      ∃ (env : Env) (starting_from : Ptr) (is_visible : Bool),
        c = Callback.onVisibilityChanged env starting_from is_visible ∧
        env.visible_in_root = false) ∧
    (native_view w ≠ 0 → native_view (c.step w) ≠ 0 →
      native_view (c.step w) = native_view w) ∧
    (∀ (env : Env) (starting_from : Ptr) (is_visible : Bool),
      c = Callback.onVisibilityChanged env starting_from is_visible →
      native_view (c.step w) ≠ 0 → IsVisibleInRootView (c.step w) = true) := by
  have hvis : ∀ (env : Env) (sf : Ptr) (v : Bool),
      IsVisibleInRootView (VisibilityChanged sf v (w.observe env)) = env.visible_in_root := by
    intro env sf v
    unfold VisibilityChanged
    cases hv : env.visible_in_root <;> by_cases hn : w.native_view_ = 0 <;>
      by_cases hg : env.widget = 0 <;> cases hh : env.next_hwnd <;>
      simp [IsVisibleInRootView, native_view, GetWidget, World.observe, hv, hn, hg, hh, Layout,
        World.call, Detach, DestroyWindow, CreateNativeControl, NativeControlCreated, SetProp,
        SetWindowProc, Attach, EnableWindow, SendMessage, CreateWindowEx]
  have hwid : ∀ (env : Env) (sf : Ptr) (v : Bool),
      GetWidget (VisibilityChanged sf v (w.observe env)) = env.widget := by
    intro env sf v
    unfold VisibilityChanged
    cases hv : env.visible_in_root <;> by_cases hn : w.native_view_ = 0 <;>
      by_cases hg : env.widget = 0 <;> cases hh : env.next_hwnd <;>
      simp [IsVisibleInRootView, native_view, GetWidget, World.observe, hv, hn, hg, hh, Layout,
        World.call, Detach, DestroyWindow, CreateNativeControl, NativeControlCreated, SetProp,
        SetWindowProc, Attach, EnableWindow, SendMessage, CreateWindowEx]
  have hwid2 : ∀ (env : Env) (a : Bool) (p q : Ptr),
      GetWidget (ViewHierarchyChanged a p q (w.observe env)) = env.widget := by
    intro env a p q
    unfold ViewHierarchyChanged
    cases a <;> by_cases hn : w.native_view_ = 0 <;>
      by_cases hg : env.widget = 0 <;> cases hh : env.next_hwnd <;>
      simp [native_view, GetWidget, World.observe, hn, hg, hh, World.call,
        NativeViewHost_ViewHierarchyChanged, CreateNativeControl, NativeControlCreated, SetProp,
        SetWindowProc, Attach, EnableWindow, SendMessage, CreateWindowEx]
  have hnv : ∀ env : Env, native_view (w.observe env) = native_view w := fun _ => rfl
  refine ⟨Nat.eq_zero_or_pos _ |>.imp id Nat.pos_iff_ne_zero.1, ?_, ?_, ?_, ?_⟩
  · intro hd ha
    cases c with
    | onViewHierarchyChanged env is_add parent child =>
      simp only [Callback.step] at ha ⊢
      rw [ViewHierarchyChanged_native_view, hnv] at ha
      rw [hwid2]
      by_cases hc : is_add = true ∧ GetWidget (w.observe env) ≠ 0 ∧ native_view w = 0
      · have hg : env.widget ≠ 0 := hc.2.1
        refine ⟨hg, Or.inl ⟨env, parent, child, ?_, hg⟩⟩
        rw [hc.1]
      · simp only [hc, if_false] at ha
        exact absurd hd ha
    | onVisibilityChanged env starting_from is_visible =>
      simp only [Callback.step] at ha ⊢
      rw [VisibilityChanged_native_view, hnv] at ha
      rw [hwid]
      by_cases hc : IsVisibleInRootView (w.observe env) = true ∧ native_view w = 0 ∧
          GetWidget (w.observe env) ≠ 0
      · have hg : env.widget ≠ 0 := hc.2.2
        exact ⟨hg, Or.inr ⟨env, starting_from, is_visible, rfl, hc.1, hg⟩⟩
      · have h1 : ¬ (IsVisibleInRootView (w.observe env) = false ∧ native_view w ≠ 0) :=
          fun h => h.2 hd
        rw [if_neg h1, if_neg hc] at ha
        exact absurd hd ha
  · intro ha hz
    cases c with
    | onViewHierarchyChanged env is_add parent child =>
      simp only [Callback.step] at hz
      rw [ViewHierarchyChanged_native_view, hnv] at hz
      simp only [ha, and_false, if_false] at hz
    | onVisibilityChanged env starting_from is_visible =>
      simp only [Callback.step] at hz ⊢
      rw [VisibilityChanged_native_view, hnv] at hz
      rw [hvis]
      cases hv : env.visible_in_root
      · exact ⟨rfl, env, starting_from, is_visible, rfl, hv⟩
      · have hv2 : IsVisibleInRootView (w.observe env) = true := hv
        simp only [hv2, ha, and_false, false_and, if_false] at hz
        exact absurd hz ha
  · intro ha hz
    cases c with
    | onViewHierarchyChanged env is_add parent child =>
      simp only [Callback.step] at hz ⊢
      rw [ViewHierarchyChanged_native_view, hnv]
      simp only [ha, and_false, if_false]
    | onVisibilityChanged env starting_from is_visible =>
      simp only [Callback.step] at hz ⊢
      rw [VisibilityChanged_native_view, hnv] at hz ⊢
      by_cases h1 : IsVisibleInRootView (w.observe env) = false ∧ native_view w ≠ 0
      · simp only [h1, ne_eq, not_false_eq_true, and_self, if_true, not_true_eq_false] at hz
      · simp only [h1, ha, and_false, false_and, if_false]
  · intro env starting_from is_visible hc ha
    subst hc
    simp only [Callback.step] at ha ⊢
    rw [VisibilityChanged_native_view, hnv] at ha
    rw [hvis]
    cases hv : env.visible_in_root
    · have hv2 : IsVisibleInRootView (w.observe env) = false := hv
      by_cases hn : native_view w = 0
      · simp [hv2, hn] at ha
      · simp [hv2, hn] at ha
    · rfl

/-- C5 as amended, at a concrete state: the hidden, detached control becomes attached by an
add to widget 9. -/
theorem C5_transitions_witness :
    GetWidget ((Callback.onViewHierarchyChanged ⟨false, 9, some 7⟩ true 2 1).step world0) ≠ 0 ∧
    ((∃ (env : Env) (parent child : Ptr),
        Callback.onViewHierarchyChanged ⟨false, 9, some 7⟩ true 2 1
          = Callback.onViewHierarchyChanged env true parent child ∧ env.widget ≠ 0) ∨
     (∃ (env : Env) (starting_from : Ptr) (is_visible : Bool),
        Callback.onViewHierarchyChanged ⟨false, 9, some 7⟩ true 2 1
          = Callback.onVisibilityChanged env starting_from is_visible ∧
        env.visible_in_root = true ∧ env.widget ≠ 0)) :=
  (C5_transitions world0 (Callback.onViewHierarchyChanged ⟨false, 9, some 7⟩ true 2 1)).2.1
    rfl (by decide)

/-! ## Messages, colours, focus and the context menu -/

theorem GetControlColor_loop_none (chain : List View) (w : World)
    (h : ∀ v ∈ chain, v.hasBrush = false) :
    GetControlColor_loop chain w = GetSysColorBrush COLOR_BTNFACE w := by
  induction chain with
  | nil => rfl
  | cons v chain ih =>
    have hv : v.hasBrush = false := h v (List.mem_cons_self _ _)
    have ih2 := ih (fun u hu => h u (List.mem_cons_of_mem _ hu))
    unfold GetControlColor_loop
    unfold View.hasBrush at hv
    cases hb : v.background with
    | none => simpa using ih2
    | some b =>
      rw [hb] at hv
      simp at hv
      simpa [hv] using ih2

theorem GetControlColor_loop_first (pre post : List View) (v : View) (w : World)
    (hpre : ∀ u ∈ pre, u.hasBrush = false) (hv : v.hasBrush = true) :
    GetControlColor_loop (pre ++ v :: post) w = (v.brush, w) := by
  induction pre with
  | nil =>
    simp only [List.nil_append]
    unfold GetControlColor_loop
    unfold View.hasBrush at hv
    unfold View.brush
    cases hb : v.background with
    | none =>
      rw [hb] at hv
      exact Bool.noConfusion hv
    | some b =>
      rw [hb] at hv
      simp at hv
      simp [hv]
  | cons u pre ih =>
    have hu : u.hasBrush = false := hpre u (List.mem_cons_self _ _)
    have ih2 := ih (fun x hx => hpre x (List.mem_cons_of_mem _ hx))
    simp only [List.cons_append]
    unfold GetControlColor_loop
    unfold View.hasBrush at hu
    cases hb : u.background with
    | none => simpa using ih2
    | some b =>
      rw [hb] at hu
      simp at hu
      simpa [hu] using ih2

theorem GetControlColor_loop_find (chain : List View) (w : World) :
    GetControlColor_loop chain w =
      (match chain.find? View.hasBrush with
       | some v => (v.brush, w)
       | none => GetSysColorBrush COLOR_BTNFACE w) := by
  induction chain with
  | nil => rfl
  | cons v chain ih =>
    unfold GetControlColor_loop
    cases hb : v.background with
    | none =>
      have hv : v.hasBrush = false := by simp [View.hasBrush, hb]
      simpa [List.find?, hv] using ih
    | some b =>
      by_cases hz : b.GetNativeControlBrush = 0
      · have hv : v.hasBrush = false := by simp [View.hasBrush, hb, hz]
        simpa [List.find?, hv, hz] using ih
      · have hv : v.hasBrush = true := by simp [View.hasBrush, hb, hz]
        simp [List.find?, hv, hz, View.brush, hb]

theorem GetControlColor_walk_chain (GetParent : Ptr → Ptr)
    (background : Ptr → Option Background) (chain : List View) (w : World) :
    ∀ (p : Ptr) (fuel : Nat), IsParentChain GetParent background p chain →
      chain.length < fuel →
      GetControlColor_walk GetParent background fuel p w
        = some (GetControlColor_loop chain w) := by
  induction chain with
  | nil =>
    intro p fuel hc hf
    cases fuel with
    | zero => exact absurd hf (Nat.lt_irrefl _)
    | succ n =>
      have hp : p = 0 := hc
      simp [GetControlColor_walk, GetControlColor_loop, hp]
  | cons v chain ih =>
    intro p fuel hc hf
    obtain ⟨hp, _, hb, hrest⟩ := hc
    cases fuel with
    | zero => exact absurd hf (Nat.not_lt_zero _)
    | succ n =>
      have hn : chain.length < n := Nat.lt_of_succ_lt_succ hf
      have ih2 := ih (GetParent p) n hrest hn
      unfold GetControlColor_walk GetControlColor_loop
      rw [if_neg hp, ← hb]
      cases hbg : v.background with
      | none => simpa using ih2
      | some bg =>
        by_cases hz : bg.GetNativeControlBrush = 0
        · simpa [hz] using ih2
        · simp [hz]

/-- C6 (`ProcessMessage` dispatch).  The return value is true exactly for `WM_CONTEXTMENU`,
`WM_CTLCOLORBTN` and `WM_CTLCOLORSTATIC`.  For `WM_CONTEXTMENU` the final `*result` is 0 (after
`ShowContextMenu` ran); for the two colour messages it is the value of
`GetControlColor(message, w_param, native_view())`; for every other message the method
returns false, leaves `*result` as it was and does nothing else. -/
theorem C6_ProcessMessage_dispatch (message : UINT) (w_param : WPARAM) (l_param : LPARAM)
    (result : LRESULT) (w : World) :
    ((ProcessMessage message w_param l_param result w).1 = true
      ↔ (message = WM_CONTEXTMENU ∨ message = WM_CTLCOLORBTN ∨ message = WM_CTLCOLORSTATIC)) ∧
    (message = WM_CONTEXTMENU →
      ProcessMessage message w_param l_param result w
        = (true, 0, ShowContextMenu ⟨GET_X_LPARAM l_param, GET_Y_LPARAM l_param⟩ w)) ∧
    (message = WM_CTLCOLORBTN ∨ message = WM_CTLCOLORSTATIC →
      ProcessMessage message w_param l_param result w
        = (true, (GetControlColor message w_param (native_view w) w).1,
            (GetControlColor message w_param (native_view w) w).2)) ∧
    (¬ (message = WM_CONTEXTMENU ∨ message = WM_CTLCOLORBTN ∨ message = WM_CTLCOLORSTATIC) →
      ProcessMessage message w_param l_param result w = (false, result, w)) := by
  have h1 : WM_CTLCOLORBTN ≠ WM_CONTEXTMENU := by decide
  have h2 : WM_CTLCOLORSTATIC ≠ WM_CONTEXTMENU := by decide
  refine ⟨?_, ?_, ?_, ?_⟩
  · unfold ProcessMessage
    by_cases a : message = WM_CONTEXTMENU
    · simp [a]
    · by_cases b : message = WM_CTLCOLORBTN ∨ message = WM_CTLCOLORSTATIC
      · simp [a, b]
      · simp [a, b]
  · intro a
    unfold ProcessMessage
    simp [a]
  · intro b
    have a : message ≠ WM_CONTEXTMENU := by
      rcases b with b | b
      · rw [b]
        exact h1
      · rw [b]
        exact h2
    unfold ProcessMessage
    simp [a, b]
  · intro c
    have a : message ≠ WM_CONTEXTMENU := fun h => c (Or.inl h)
    have b : ¬ (message = WM_CTLCOLORBTN ∨ message = WM_CTLCOLORSTATIC) :=
      fun h => c (Or.inr h)
    unfold ProcessMessage
    simp [a, b]

/-- C6, at concrete messages: `WM_CTLCOLORSTATIC` (0x138) is handled, and `WM_KEYDOWN` is
not and leaves `*result` (here 42) alone. -/
theorem C6_ProcessMessage_dispatch_witness :
    ProcessMessage WM_CTLCOLORSTATIC 3 0 42 world0 = (true, 40, world0) ∧
    ProcessMessage WM_KEYDOWN 3 0 42 world0 = (false, 42, world0) :=
  ⟨(C6_ProcessMessage_dispatch WM_CTLCOLORSTATIC 3 0 42 world0).2.2.1 (Or.inr rfl),
   (C6_ProcessMessage_dispatch WM_KEYDOWN 3 0 42 world0).2.2.2 (by decide)⟩

/-- C7 (colour delegation to ancestors).  With the parent chain `[self, parent, ..., root]`:
`GetControlColor` returns the brush of the first view of the chain that has a background with
a non-null native control brush (nothing else is called); when no view of the chain has one it
returns `GetSysColorBrush(COLOR_BTNFACE)`, and that system brush is fetched if and only if no
view has a brush, so that, view brushes being distinct from the system brush, the result is
the system brush exactly in that case.  The result does not depend on `message`, `dc` or
`sender`.  The search is a total function of the finite chain, and the pointer loop of the
source, run on any finite acyclic parent chain, ends within one loop test per view plus one
and returns that same result. -/
theorem C7_GetControlColor_delegation (message : UINT) (dc : HDC) (sender : HWND)
    (w : World) :
    (∀ (pre post : List View) (v : View), w.self :: w.ancestors = pre ++ v :: post →
      (∀ u ∈ pre, u.hasBrush = false) → v.hasBrush = true →
      GetControlColor message dc sender w = (v.brush, w) ∧ v.brush ≠ 0) ∧
    ((∀ v ∈ w.self :: w.ancestors, v.hasBrush = false) →
      GetControlColor message dc sender w
        = (w.sys_color_brush COLOR_BTNFACE, w.call (Call.GetSysColorBrush COLOR_BTNFACE))) ∧
    (Call.GetSysColorBrush COLOR_BTNFACE ∈ emitted w (GetControlColor message dc sender w).2
      ↔ ∀ v ∈ w.self :: w.ancestors, v.hasBrush = false) ∧
    ((∀ v ∈ w.self :: w.ancestors,
        v.hasBrush = true → v.brush ≠ w.sys_color_brush COLOR_BTNFACE) →
      ((GetControlColor message dc sender w).1 = w.sys_color_brush COLOR_BTNFACE
        ↔ ∀ v ∈ w.self :: w.ancestors, v.hasBrush = false)) ∧
    GetControlColor message dc sender w =
      (match (w.self :: w.ancestors).find? View.hasBrush with
       | some v => (v.brush, w)
       | none => GetSysColorBrush COLOR_BTNFACE w) ∧
    (∀ (message2 : UINT) (dc2 : HDC) (sender2 : HWND),
      GetControlColor message2 dc2 sender2 w = GetControlColor message dc sender w) ∧
    (∀ (GetParent : Ptr → Ptr) (background : Ptr → Option Background) (fuel : Nat),
      IsParentChain GetParent background w.self.id (w.self :: w.ancestors) →
      (w.self :: w.ancestors).length < fuel →
      GetControlColor_walk GetParent background fuel w.self.id w
        = some (GetControlColor message dc sender w)) := by
  have hfind := GetControlColor_loop_find (w.self :: w.ancestors) w
  have hnone : (∀ v ∈ w.self :: w.ancestors, v.hasBrush = false) →
      GetControlColor message dc sender w
        = (w.sys_color_brush COLOR_BTNFACE, w.call (Call.GetSysColorBrush COLOR_BTNFACE)) := by
    intro h
    unfold GetControlColor
    rw [GetControlColor_loop_none _ w h]
    rfl
  have hsome : (¬ ∀ v ∈ w.self :: w.ancestors, v.hasBrush = false) →
      ∃ v ∈ w.self :: w.ancestors, v.hasBrush = true ∧
        GetControlColor message dc sender w = (v.brush, w) := by
    intro h
    unfold GetControlColor
    rw [hfind]
    cases hf : (w.self :: w.ancestors).find? View.hasBrush with
    | none =>
      exfalso
      apply h
      intro v hv
      have := List.find?_eq_none.1 hf v hv
      simpa using this
    | some v =>
      exact ⟨v, List.mem_of_find?_eq_some hf, List.find?_some hf, rfl⟩
  refine ⟨?_, hnone, ?_, ?_, hfind, fun _ _ _ => rfl,
    fun GetParent background fuel hc hf =>
      GetControlColor_walk_chain GetParent background _ w _ fuel hc hf⟩
  · intro pre post v hch hpre hv
    constructor
    · unfold GetControlColor
      rw [hch]
      exact GetControlColor_loop_first pre post v w hpre hv
    · unfold View.hasBrush at hv
      unfold View.brush
      cases hb : v.background with
      | none =>
        rw [hb] at hv
        exact Bool.noConfusion hv
      | some b =>
        rw [hb] at hv
        simpa using hv
  · constructor
    · intro hm
      by_contra hc
      obtain ⟨v, _, _, he⟩ := hsome hc
      rw [he] at hm
      simp [emitted] at hm
    · intro h
      rw [hnone h]
      simp [emitted, World.call]
  · intro hdist
    constructor
    · intro hr
      by_contra hc
      obtain ⟨v, hv, hb, he⟩ := hsome hc
      rw [he] at hr
      exact hdist v hv hb hr
    · intro h
      rw [hnone h]

/-- C7, at a concrete chain: the control (view 1) has no background, its parent (view 2) has
brush 40, the root (view 3) has none; the pointer loop finds the same brush with fuel 4. -/
theorem C7_GetControlColor_delegation_witness :
    (GetControlColor WM_CTLCOLORBTN 3 0 world0 = (40, world0) ∧ (40 : HBRUSH) ≠ 0) ∧
    GetControlColor_walk (fun p => if p = 1 then 2 else if p = 2 then 3 else 0)
        (fun p => if p = 2 then some ⟨40⟩ else none) 4 1 world0
      = some (40, world0) :=
  ⟨(C7_GetControlColor_delegation WM_CTLCOLORBTN 3 0 world0).1
      [⟨1, none⟩] [⟨3, none⟩] ⟨2, some ⟨40⟩⟩ rfl (by decide) rfl,
   (C7_GetControlColor_delegation WM_CTLCOLORBTN 3 0 world0).2.2.2.2.2.2
      (fun p => if p = 1 then 2 else if p = 2 then 3 else 0)
      (fun p => if p = 2 then some ⟨40⟩ else none) 4
      ⟨by decide, rfl, rfl, by decide, rfl, rfl, by decide, rfl, rfl, rfl⟩ (by decide)⟩

/-- C8 (`Focus` fails fast without a handle).  `Focus` fails its `DCHECK` if and only if no
handle is attached, and with a non-null parent that is its only way to fail.  With a handle
attached and a non-null parent it succeeds, its calls are exactly `SetFocus(handle)` followed
by one `NotifyAccessibilityEvent(EVENT_FOCUS, send_native_event)` on the parent, where
`send_native_event` is the parent's `HasFocus()` evaluated in the world after `SetFocus`; the
native focus is then on the handle and the attached handle is unchanged. -/
theorem C8_Focus_fails_fast (HasFocus : View → World → Bool) (w : World) :
    (Focus HasFocus w = Except.error Fault.DCHECK ↔ native_view w = 0) ∧
    (∀ parent_view : View, GetParent w = some parent_view →
      ((∃ e : Fault, Focus HasFocus w = Except.error e) ↔ native_view w = 0)) ∧
    (∀ parent_view : View, native_view w ≠ 0 → GetParent w = some parent_view →
      ∃ w2 : World, Focus HasFocus w = Except.ok w2 ∧
        emitted w w2 =
          [Call.SetFocus (native_view w),
           Call.NotifyAccessibilityEvent parent_view.id AccessibilityTypes.EVENT_FOCUS
             (HasFocus parent_view (SetFocus (native_view w) w))] ∧
        w2.focus = native_view w ∧
        native_view w2 = native_view w) := by
  have hp : ∀ x : HWND, GetParent (SetFocus x w) = GetParent w := fun _ => rfl
  refine ⟨?_, ?_, ?_⟩
  · unfold Focus
    by_cases hn : native_view w = 0
    · simp [hn]
    · simp only [hn, if_false, iff_false]
      rw [hp]
      cases GetParent w <;> simp
  · intro parent_view hpar
    unfold Focus
    by_cases hn : native_view w = 0
    · simp [hn]
    · simp only [hn, if_false, iff_false]
      rw [hp, hpar]
      simp
  · intro parent_view hn hpar
    unfold Focus
    simp only [hn, if_false]
    rw [hp, hpar]
    refine ⟨_, rfl, ?_, rfl, rfl⟩
    apply emitted_append
    simp [NotifyAccessibilityEvent, World.call, SetFocus]

/-- C8, at a concrete state: focusing the control attached to window 7 below parent view 2. -/
theorem C8_Focus_fails_fast_witness :
    ∃ w2 : World,
      Focus (fun _ x => decide (x.focus = 7)) { world0 with native_view_ := 7 } = Except.ok w2 ∧
      emitted { world0 with native_view_ := 7 } w2 =
        [Call.SetFocus 7,
         Call.NotifyAccessibilityEvent 2 AccessibilityTypes.EVENT_FOCUS true] ∧
      w2.focus = 7 ∧ native_view w2 = 7 :=
  (C8_Focus_fails_fast (fun _ x => decide (x.focus = 7)) { world0 with native_view_ := 7 }).2.2
    ⟨2, some ⟨40⟩⟩ (by decide) rfl

theorem lparam_minus_one (l : Nat) :
    (short (LOWORD l) = -1 ∧ short (HIWORD l) = -1) ↔ l % 4294967296 = 4294967295 := by
  unfold short LOWORD HIWORD
  simp only [Nat.mod_mod]
  have key : l % 4294967296 = l % 65536 + 65536 * (l / 65536 % 65536) := by omega
  have ha : l % 65536 < 65536 := Nat.mod_lt _ (by decide)
  have hb : l / 65536 % 65536 < 65536 := Nat.mod_lt _ (by decide)
  rw [key]
  generalize l % 65536 = a at ha ⊢
  generalize l / 65536 % 65536 = b at hb ⊢
  split <;> split <;> omega

/-- C10 (context-menu decision).  Without a context menu controller `ShowContextMenu` does
nothing.  With one it makes exactly one call to the base `ShowContextMenu`: at the keyboard
location with `is_mouse_gesture` false when `x = -1` and `y = -1` both hold, and at the given
location with `is_mouse_gesture` true otherwise (also when only one coordinate is -1).  From
`ProcessMessage`, `x` and `y` are the low and high 16-bit words of `l_param` read as signed
16-bit integers, so they are both -1 exactly when the low 32 bits of `l_param` are
0xFFFFFFFF. -/
theorem C10_ShowContextMenu_decision (location : Point) (w : World) :
    (GetContextMenuController w = 0 → ShowContextMenu location w = w) ∧
    (GetContextMenuController w ≠ 0 → location.x = -1 ∧ location.y = -1 →
      emitted w (ShowContextMenu location w)
        = [Call.View_ShowContextMenu (GetKeyboardContextMenuLocation w) false]) ∧
    (GetContextMenuController w ≠ 0 → ¬ (location.x = -1 ∧ location.y = -1) →
      emitted w (ShowContextMenu location w) = [Call.View_ShowContextMenu location true]) ∧
    (∀ (w_param : WPARAM) (l_param : LPARAM) (result : LRESULT),
      ProcessMessage WM_CONTEXTMENU w_param l_param result w
        = (true, 0, ShowContextMenu ⟨GET_X_LPARAM l_param, GET_Y_LPARAM l_param⟩ w)) ∧
    (∀ l_param : LPARAM,
      (-32768 ≤ GET_X_LPARAM l_param ∧ GET_X_LPARAM l_param < 32768 ∧
        (GET_X_LPARAM l_param - (l_param % 65536 : Nat)) % 65536 = 0) ∧
      (-32768 ≤ GET_Y_LPARAM l_param ∧ GET_Y_LPARAM l_param < 32768 ∧
        (GET_Y_LPARAM l_param - (l_param / 65536 % 65536 : Nat)) % 65536 = 0) ∧
      ((GET_X_LPARAM l_param = -1 ∧ GET_Y_LPARAM l_param = -1)
        ↔ l_param % 4294967296 = 0xFFFFFFFF)) := by
  refine ⟨?_, ?_, ?_, ?_, ?_⟩
  · intro h
    unfold ShowContextMenu
    simp [h]
  · intro h hxy
    apply emitted_append
    unfold ShowContextMenu
    simp [h, hxy, View_ShowContextMenu, World.call]
  · intro h hxy
    apply emitted_append
    unfold ShowContextMenu
    simp only [h, hxy, if_false]
    simp [View_ShowContextMenu, World.call]
  · intro w_param l_param result
    unfold ProcessMessage
    simp
  · intro l_param
    unfold GET_X_LPARAM GET_Y_LPARAM short LOWORD HIWORD
    simp only [Nat.mod_mod]
    refine ⟨?_, ?_, ?_⟩
    · split <;> omega
    · split <;> omega
    · have h := lparam_minus_one l_param
      unfold short LOWORD HIWORD at h
      simp only [Nat.mod_mod] at h
      exact h

/-- C10, at concrete inputs: a controller is present; `(-1, -1)` selects the keyboard
location `(10, 20)`, and `(-1, 5)` is shown where it is as a mouse gesture. -/
theorem C10_ShowContextMenu_decision_witness :
    emitted world0 (ShowContextMenu ⟨-1, -1⟩ world0)
      = [Call.View_ShowContextMenu ⟨10, 20⟩ false] ∧
    emitted world0 (ShowContextMenu ⟨-1, 5⟩ world0)
      = [Call.View_ShowContextMenu ⟨-1, 5⟩ true] :=
  ⟨(C10_ShowContextMenu_decision ⟨-1, -1⟩ world0).2.1 (by decide) (by decide),
   (C10_ShowContextMenu_decision ⟨-1, 5⟩ world0).2.2.1 (by decide) (by decide)⟩

/-! ## The subclassed window procedure -/

end view
